import Mathlib

/-!
Verification of the MindCalls dashboard client (React frontend).

The development shallowly embeds the parts of the source needed by the
claims: the API gateway client (apiCall in App.js), the durable session
store (localStorage keys), the transcript reader widget
(EnhancedInterviewReaderWidget and SegmentDisplay in the unnamed source
file), the dashboard fan-out fetch (fetchAllData), and the chat widget
(ChatWidget.handleSendMessage).  Asynchronous handlers are modelled as
pure functions from the current state and the outcome of each network
request to the next state, the storage and reload effects, and the list
of requests issued.
-/

namespace Mindcalls

/-! ## JavaScript string semantics helpers -/

/-- Truthiness-based fallback on an optional string, modelling the
JavaScript expression a || b where a may be undefined, null or a
string: the empty string is falsy, so it falls through to b. -/
def jsOrStr : Option String → String → String
  | none, b => b
  | some a, b => if a == ("") then b else a

/-- Truthiness of an optional string: undefined, null and the empty
string are falsy. -/
def truthyStr : Option String → Bool
  | none => false
  | some s => !(s == (""))

/-- Whether one character list starts with another, helper for the
substring check below. -/
def startsWithChars : List Char → List Char → Bool
  | [], _ => true
  | _ :: _, [] => false
  | a :: as, b :: bs => a == b && startsWithChars as bs

/-- Whether the character list needle occurs inside hay. -/
def containsChars (needle : List Char) : List Char → Bool
  | [] => startsWithChars needle []
  | b :: bs => startsWithChars needle (b :: bs) || containsChars needle bs

/-- Substring containment, modelling JavaScript String.prototype.includes. -/
def strIncludes (hay needle : String) : Bool :=
  containsChars needle.data hay.data

/-- Whitespace as trimmed by String.prototype.trim on the inputs that
occur here. -/
def isWsChar (c : Char) : Bool :=
  c == (' ') || c == ('\t') || c == ('\n') || c == ('\r')

/-- Character-list trim helper. -/
def trimChars (l : List Char) : List Char :=
  ((l.dropWhile isWsChar).reverse.dropWhile isWsChar).reverse

/-- Model of JavaScript String.prototype.trim. -/
def jsTrim (s : String) : String :=
  String.mk (trimChars s.data)

/-! ## Session store and API gateway client

Model of the auth utilities and apiCall of App.js (the unnamed source
file contains the identical definitions).  The durable storage holds the
three keys access_token, user_email and access_level; apiCall injects
the bearer token, and on a 401 response clears the storage and forces a
full reload, resolving with undefined.  A non-2xx response other than
401 throws; a transport failure rethrows.
-/

/-- The three durable localStorage keys. -/
structure Storage where
  access_token : Option String
  user_email : Option String
  access_level : Option String
deriving DecidableEq

/-- clearStoredAuth: removes all three keys. -/
def clearStoredAuth (_s : Storage) : Storage :=
  { access_token := none, user_email := none, access_level := none }

/-- Browser-level effects threaded through every API call: the durable
storage and whether window.location.reload was invoked. -/
structure Effects where
  storage : Storage
  reloaded : Bool
deriving DecidableEq

/-- An HTTP response as seen by apiCall: the status code, the parsed
JSON payload (used only on the 2xx path), and the body text (used in
the thrown error message). -/
structure Response (α : Type) where
  status : Nat
  data : α
  bodyText : String
deriving DecidableEq

/-- Outcome of the underlying fetch: either a response arrived or the
transport failed. -/
inductive FetchResult (α : Type) where
  | resp (r : Response α)
  | netFail (msg : String)
deriving DecidableEq

/-- Result of awaiting apiCall: the promise resolves with a value
(none models the undefined returned on the 401 path) or rejects. -/
inductive CallResult (α : Type) where
  | value (a : Option α)
  | thrown (msg : String)
deriving DecidableEq

/-- response.ok: status in the range 200 to 299. -/
def responseOk {α : Type} (r : Response α) : Bool :=
  200 ≤ r.status && r.status ≤ 299

/-- apiCall of App.js: on 401 clear the stored auth, reload, and
resolve with undefined; on any other non-2xx build and throw an error;
on a transport failure rethrow; otherwise resolve with the parsed
data. -/
def apiCall {α : Type} (eff : Effects) (fr : FetchResult α) :
    Effects × CallResult α :=
  match fr with
  | FetchResult.netFail m => (eff, CallResult.thrown m)
  | FetchResult.resp r =>
    if r.status == 401 then
      ({ storage := clearStoredAuth eff.storage, reloaded := true },
       CallResult.value none)
    else if responseOk r then
      (eff, CallResult.value (some r.data))
    else
      (eff, CallResult.thrown (("API Error: ") ++ toString r.status ++ (" - ") ++ r.bodyText))

/-- The two top-level views of the App component. -/
inductive AppView where
  | landing
  | dashboard
deriving DecidableEq

/-- The mount-time auth check of App: authenticated iff the stored
token and the stored email are both truthy. -/
def initialAuthenticated (st : Storage) : Bool :=
  truthyStr st.access_token && truthyStr st.user_email

/-- The view shown after (re)load: the landing page when the mount
check fails, the dashboard otherwise. -/
def mountView (st : Storage) : AppView :=
  if initialAuthenticated st then AppView.dashboard else AppView.landing

/-! ## Transcript data model

From the segment rendering in the unnamed source file: a segment has an
id, a speaker, the original text, an optional edited_text override, an
editable flag and optional tags; a transcript detail carries an ordered
list of segments.
-/

/-- Optional tags of a segment: sentiment, theme and free-text notes. -/
structure Tags where
  sentiment : Option String
  theme : Option String
  notes : Option String
deriving DecidableEq

/-- One speaker turn of a transcribed interview. -/
structure Segment where
  id : String
  speaker : String
  text : String
  edited_text : Option String
  editable : Bool
  tags : Option Tags
deriving DecidableEq

/-- The full interview detail returned by GET interview/id, as far as
the transcript reader consumes it. -/
structure Transcript where
  id : String
  supermarket : String
  editable : Bool
  segments : List Segment
deriving DecidableEq

/-- The minimal user profile held by App and passed to the reader
widget: email and access level, each possibly absent in storage. -/
structure User where
  email : Option String
  accessLevel : Option String
deriving DecidableEq

/-! ## Requests issued by the widgets -/

/-- The API requests the modelled handlers can issue, with the payload
fields they serialize. -/
inductive Request where
  | getInterview (interviewId : Option String)
  | postEdit (interviewId : Option String) (segmentId : String) (editedText : String)
  | postTag (interviewId : Option String) (segmentId : String)
      (sentiment theme notes : String)
  | getThemesAvailable
  | getOverview
  | getThemes
  | getRatings
  | getInterviews
  | postChat (question : String)
deriving DecidableEq

/-! ## Transcript reader widget

EnhancedInterviewReaderWidget holds the selected interview id, the
fetched full transcript, a loading flag, the single shared
editingSegment slot and its edit buffer; each SegmentDisplay child
additionally holds a local showTagging toggle, modelled here as a
boolean per segment id.
-/

/-- The state of EnhancedInterviewReaderWidget together with the
per-segment local tagging-panel toggles of its SegmentDisplay
children. -/
structure ReaderState where
  selectedInterview : Option String
  fullTranscript : Option Transcript
  loadingTranscript : Bool
  editingSegment : Option String
  editText : String
  tagOpen : String → Bool

/-- The individual setState calls the reader performs, in order. -/
inductive ReaderUpdate where
  | setLoadingTranscript (b : Bool)
  | setFullTranscript (t : Option Transcript)
  | setSelectedInterview (i : Option String)
  | setEditingSegment (e : Option String)
  | setEditText (s : String)
deriving DecidableEq

/-- Apply one setState call to the reader state. -/
def applyUpdate (st : ReaderState) : ReaderUpdate → ReaderState
  | ReaderUpdate.setLoadingTranscript b => { st with loadingTranscript := b }
  | ReaderUpdate.setFullTranscript t => { st with fullTranscript := t }
  | ReaderUpdate.setSelectedInterview i => { st with selectedInterview := i }
  | ReaderUpdate.setEditingSegment e => { st with editingSegment := e }
  | ReaderUpdate.setEditText s => { st with editText := s }

/-- The ordered setState trace of fetchFullTranscript, given the
awaited result of its apiCall: the loading flag is raised, then on a
resolved call the transcript is stored before the selection is
switched, then the loading flag is cleared in the finally block; a
thrown call only logs. -/
def fetchFullTranscriptTrace (interviewId : Option String)
    (res : CallResult Transcript) : List ReaderUpdate :=
  [ReaderUpdate.setLoadingTranscript true] ++
  (match res with
   | CallResult.thrown _ => []
   | CallResult.value d =>
     [ReaderUpdate.setFullTranscript d,
      ReaderUpdate.setSelectedInterview interviewId]) ++
  [ReaderUpdate.setLoadingTranscript false]

/-- fetchFullTranscript: issues GET interview/id and applies its
setState trace to the widget state. -/
def fetchFullTranscript (eff : Effects) (st : ReaderState)
    (interviewId : Option String) (fr : FetchResult Transcript) :
    Effects × ReaderState × List Request :=
  let out := apiCall eff fr
  (out.1,
   (fetchFullTranscriptTrace interviewId out.2).foldl applyUpdate st,
   [Request.getInterview interviewId])

/-- The privilege check of the reader widget:
user?.accessLevel?.includes with Premium, or the same with Admin,
each falsy when the user or the level is absent. -/
def isEditable (user : Option User) : Bool :=
  (match user with
   | none => false
   | some u =>
     match u.accessLevel with
     | none => false
     | some lvl => strIncludes lvl ("Premium"))
  ||
  (match user with
   | none => false
   | some u =>
     match u.accessLevel with
     | none => false
     | some lvl => strIncludes lvl ("Admin"))

/-- The access level carried by an optional user. -/
def accessLevelOf (user : Option User) : Option String :=
  match user with
  | none => none
  | some u => u.accessLevel

/-- Whether the edit and tag buttons of a segment are rendered:
isEditable and the editable flag of the segment. -/
def editControlsShown (user : Option User) (s : Segment) : Bool :=
  isEditable user && s.editable

/-- Whether the tagging interface of a segment is rendered: the local
showTagging toggle and isEditable. -/
def taggingPanelShown (user : Option User) (showTagging : Bool) : Bool :=
  showTagging && isEditable user

/-- startEdit of SegmentDisplay: claim the shared editing slot for
this segment and pre-fill the buffer with edited_text falling back to
text under JavaScript truthiness. -/
def startEdit (st : ReaderState) (s : Segment) : ReaderState :=
  { st with editingSegment := some s.id,
            editText := jsOrStr s.edited_text s.text }

/-- cancelEdit of SegmentDisplay: release the shared editing slot and
clear the buffer, with no network call. -/
def cancelEdit (st : ReaderState) : ReaderState :=
  { st with editingSegment := none, editText := ("") }

/-- The setShowTagging toggle of one SegmentDisplay: per-segment local
state, the other segments are untouched. -/
def toggleTagPanel (st : ReaderState) (sid : String) : ReaderState :=
  { st with tagOpen := fun k => if k == sid then !(st.tagOpen k) else st.tagOpen k }

/-- handleEditSegment: guarded by isEditable; POST interview/edit with
the selected interview, the segment id and the new text; when the
await does not throw, re-fetch the full transcript and release the
editing slot; a thrown call only logs. -/
def handleEditSegment (user : Option User) (eff : Effects) (st : ReaderState)
    (segmentId newText : String)
    (postFr : FetchResult Unit) (getFr : FetchResult Transcript) :
    Effects × ReaderState × List Request :=
  if !(isEditable user) then (eff, st, [])
  else
    let req0 := Request.postEdit st.selectedInterview segmentId newText
    let out1 := apiCall eff postFr
    match out1.2 with
    | CallResult.thrown _ => (out1.1, st, [req0])
    | CallResult.value _ =>
      let out2 := fetchFullTranscript out1.1 st st.selectedInterview getFr
      (out2.1, { out2.2.1 with editingSegment := none }, req0 :: out2.2.2)

/-- handleTagSegment: guarded by isEditable; POST interview/tag with
the selected interview, the segment id, sentiment, theme and notes;
when the await does not throw, re-fetch the full transcript; a thrown
call only logs. -/
def handleTagSegment (user : Option User) (eff : Effects) (st : ReaderState)
    (segmentId sentiment theme notes : String)
    (postFr : FetchResult Unit) (getFr : FetchResult Transcript) :
    Effects × ReaderState × List Request :=
  if !(isEditable user) then (eff, st, [])
  else
    let req0 := Request.postTag st.selectedInterview segmentId sentiment theme notes
    let out1 := apiCall eff postFr
    match out1.2 with
    | CallResult.thrown _ => (out1.1, st, [req0])
    | CallResult.value _ =>
      let out2 := fetchFullTranscript out1.1 st st.selectedInterview getFr
      (out2.1, out2.2.1, req0 :: out2.2.2)

/-- saveTags of SegmentDisplay: fire handleTagSegment with the local
panel selections and close the panel immediately, without awaiting the
outcome. -/
def saveTags (user : Option User) (eff : Effects) (st : ReaderState)
    (s : Segment) (selectedSentiment selectedTheme notes : String)
    (postFr : FetchResult Unit) (getFr : FetchResult Transcript) :
    Effects × ReaderState × List Request :=
  let out := handleTagSegment user eff st s.id selectedSentiment selectedTheme notes postFr getFr
  (out.1,
   { out.2.1 with tagOpen := fun k => if k == s.id then false else out.2.1.tagOpen k },
   out.2.2)

/-! ## Segment rendering -/

/-- What the segment body renders as: the shared edit buffer in a
textarea while this segment holds the editing slot, otherwise a plain
text view. -/
inductive SegmentView where
  | editor (buffer : String)
  | textView (shown : String)
deriving DecidableEq

/-- The non-editing display text of a segment:
segment.edited_text || segment.text. -/
def displayedText (s : Segment) : String :=
  jsOrStr s.edited_text s.text

/-- The body rendered by SegmentDisplay for a segment, given the shared
editing slot and buffer. -/
def renderSegment (editingSegment : Option String) (editText : String)
    (s : Segment) : SegmentView :=
  if editingSegment == some s.id then SegmentView.editor editText
  else SegmentView.textView (displayedText s)

/-- The wording of the display claim taken literally: edited_text
whenever the field is present, regardless of its value.  Stated for
comparison with displayedText, which is translated from the source. -/
def claimedDisplay (s : Segment) : String :=
  match s.edited_text with
  | some e => e
  | none => s.text

/-- A segment is in Editing state iff the single shared slot holds its
id. -/
def segInEditing (st : ReaderState) (s : Segment) : Prop :=
  st.editingSegment = some s.id

instance (st : ReaderState) (s : Segment) : Decidable (segInEditing st s) := by
  unfold segInEditing; infer_instance

/-! ## Dashboard data and the four-way fetch

fetchAllData of App.js issues the four requests through Promise.all and
destructures the tuple; the state setters run only after the tuple is
available, and the catch branch sets a single error message.  To talk
about settle times, each of the four apiCall promises is modelled as a
value that settles at some time with either a resolution or a
rejection, and Promise.all is given its denotation on such values.
-/

/-- Payload of GET overview as far as the dashboard consumes it. -/
structure OverviewData where
  total_interviews : Nat
  active_interviews : Nat
  assistant_name : String
deriving DecidableEq

/-- Sentiment counts of one aggregated theme. -/
structure SentimentBreakdown where
  positive : Nat
  neutral : Nat
  negative : Nat
deriving DecidableEq

/-- One aggregated theme as rendered by ThemeCollectorWidget. -/
structure ThemeAgg where
  name : String
  total_mentions : Nat
  sentiment_breakdown : SentimentBreakdown
  is_new : Bool
deriving DecidableEq

/-- One rating category as rendered by the ratings widget. -/
structure RatingInfo where
  label : String
  average : Nat
  color : String
deriving DecidableEq

/-- One interview summary as rendered in list views. -/
structure InterviewSummary where
  id : String
  supermarket : String
  duration : Nat
  status : String
  transcript : Option String
deriving DecidableEq

/-- Envelope of GET themes; the themes field may be absent. -/
structure ThemesResp where
  themes : Option (List ThemeAgg)
deriving DecidableEq

/-- Envelope of GET ratings; the ratings field may be absent. -/
structure RatingsResp where
  ratings : Option (List (String × RatingInfo))
deriving DecidableEq

/-- Envelope of GET interviews; the interviews field may be absent. -/
structure InterviewsResp where
  interviews : Option (List InterviewSummary)
deriving DecidableEq

/-- The dashboard slice of the App state touched by fetchAllData. -/
structure DashState where
  isLoading : Bool
  error : Option String
  overview : Option OverviewData
  themes : List ThemeAgg
  ratings : List (String × RatingInfo)
  interviews : List InterviewSummary
deriving DecidableEq

/-- Outcome of an awaited promise: a resolution or a rejection. -/
inductive PromiseOutcome (α : Type) where
  | ok (a : α)
  | rejected (reason : String)
deriving DecidableEq

/-- A promise outcome with the time at which the promise settles. -/
structure Settled (α : Type) where
  time : Nat
  outcome : PromiseOutcome α
deriving DecidableEq

/-- The settle time and reason of a rejected promise, none when it
resolves. -/
def rejOf {α : Type} (s : Settled α) : Option (Nat × String) :=
  match s.outcome with
  | PromiseOutcome.rejected m => some (s.time, m)
  | PromiseOutcome.ok _ => none

/-- The earliest entry of a list of settle times, keeping the earlier
list position on ties. -/
def earliest : List (Nat × String) → Option (Nat × String)
  | [] => none
  | x :: xs =>
    match earliest xs with
    | none => some x
    | some y => if y.1 < x.1 then some y else some x

/-- The time at which the last of the four promises settles. -/
def allSettleTime4 {α β γ δ : Type} (a : Settled α) (b : Settled β)
    (c : Settled γ) (d : Settled δ) : Nat :=
  max (max a.time b.time) (max c.time d.time)

/-- Denotation of Promise.all on four promises: when all four resolve
it resolves with the tuple once the last one settles; otherwise it
rejects with the reason of the first rejection, at the time of that
first rejection. -/
def promiseAll4 {α β γ δ : Type} (a : Settled α) (b : Settled β)
    (c : Settled γ) (d : Settled δ) : Settled (α × β × γ × δ) :=
  match a.outcome, b.outcome, c.outcome, d.outcome with
  | PromiseOutcome.ok x, PromiseOutcome.ok y, PromiseOutcome.ok z, PromiseOutcome.ok w =>
    { time := allSettleTime4 a b c d, outcome := PromiseOutcome.ok (x, y, z, w) }
  | _, _, _, _ =>
    match earliest ((rejOf a).toList ++ (rejOf b).toList ++
                    (rejOf c).toList ++ (rejOf d).toList) with
    | some tm => { time := tm.1, outcome := PromiseOutcome.rejected tm.2 }
    | none => { time := allSettleTime4 a b c d, outcome := PromiseOutcome.rejected ("") }

/-- The four requests fetchAllData issues, in the order they appear in
the Promise.all array. -/
def dashboardBatch : List Request :=
  [Request.getOverview, Request.getThemes, Request.getRatings, Request.getInterviews]

/-- The error banner message set by the catch branch of fetchAllData. -/
def dashboardErrorMsg : String :=
  "Kunne ikke indlæse dashboard data. Tjek din internetforbindelse."

/-- fetchAllData with the timed Promise.all denotation: raise the
loading flag when asked, clear the error, await the batch; on
resolution store all four payloads (themes, ratings and interviews
defaulting to empty under JavaScript truthiness); on rejection set the
single error message; finally clear the loading flag when it was
raised.  Returns the next state, the batch settle time and the
requests issued. -/
def fetchAllData (showLoading : Bool) (st : DashState)
    (a : Settled OverviewData) (b : Settled ThemesResp)
    (c : Settled RatingsResp) (d : Settled InterviewsResp) :
    DashState × Nat × List Request :=
  let st0 := { st with isLoading := showLoading || st.isLoading, error := none }
  let batch := promiseAll4 a b c d
  let st1 :=
    match batch.outcome with
    | PromiseOutcome.ok (ov, th, ra, iv) =>
      { st0 with overview := some ov,
                 themes := th.themes.getD [],
                 ratings := ra.ratings.getD [],
                 interviews := iv.interviews.getD [] }
    | PromiseOutcome.rejected _ =>
      { st0 with error := some dashboardErrorMsg }
  ({ st1 with isLoading := if showLoading then false else st1.isLoading },
   batch.time, dashboardBatch)

/-- handleRetry of App: fetchAllData with the loading indicator. -/
def handleRetry (st : DashState)
    (a : Settled OverviewData) (b : Settled ThemesResp)
    (c : Settled RatingsResp) (d : Settled InterviewsResp) :
    DashState × Nat × List Request :=
  fetchAllData true st a b c d

/-! ## Chat widget -/

/-- Payload of POST chat. -/
structure ChatResp where
  answer : String
deriving DecidableEq

/-- One conversation entry of ChatWidget; the type field is the user
or bot discriminator string of the source. -/
structure ChatMessage where
  type : String
  content : String
deriving DecidableEq

/-- The state of ChatWidget. -/
structure ChatState where
  messages : List ChatMessage
  input : String
  isLoading : Bool
deriving DecidableEq

/-- The fixed apology appended when the chat call fails. -/
def chatApology : String :=
  "Beklager, jeg kunne ikke behandle dit spørgsmål."

/-- The bot message content appended after awaiting the chat call: the
server answer on a resolved call with data; the apology when the call
threw, and likewise on the 401 undefined resolution, where reading the
answer field throws inside the try block. -/
def chatBotReply (res : CallResult ChatResp) : String :=
  match res with
  | CallResult.value (some r) => r.answer
  | CallResult.value none => chatApology
  | CallResult.thrown _ => chatApology

/-- handleSendMessage of ChatWidget: a blank input returns before any
state change or request; otherwise the user message (with the
untrimmed input) is appended and the loading flag raised, POST chat is
issued, exactly one bot message is appended, and finally the input is
cleared and the loading flag dropped. -/
def handleSendMessage (eff : Effects) (st : ChatState)
    (fr : FetchResult ChatResp) : Effects × ChatState × List Request :=
  if jsTrim st.input == ("") then (eff, st, [])
  else
    let st1 := { st with
      messages := st.messages ++ [({ type := ("user"), content := st.input } : ChatMessage)],
      isLoading := true }
    let out := apiCall eff fr
    let st2 := { st1 with
      messages := st1.messages ++
        [({ type := ("bot"), content := chatBotReply out.2 } : ChatMessage)] }
    (out.1, { st2 with input := (""), isLoading := false }, [Request.postChat st.input])

/-! ## Concrete fixtures for witnesses and counterexamples -/

/-- A reader state before any interview is selected. -/
def readerInit : ReaderState :=
  { selectedInterview := none, fullTranscript := none, loadingTranscript := false,
    editingSegment := none, editText := (""), tagOpen := fun _ => false }

/-- A user with the Premium access level. -/
def premUser : User :=
  { email := some ("a@b.dk"), accessLevel := some ("Premium") }

/-- A user with the Standard access level. -/
def stdUser : User :=
  { email := some ("c@d.dk"), accessLevel := some ("Standard") }

/-- A user whose access level merely contains Premium as a substring. -/
def ptUser : User :=
  { email := some ("t@b.dk"), accessLevel := some ("Premium-trial") }

/-- Browser effects of a logged-in session. -/
def effAuth : Effects :=
  { storage := { access_token := some ("tok"), user_email := some ("a@b.dk"),
                 access_level := some ("Premium") },
    reloaded := false }

/-- An AI segment with no override. -/
def segA : Segment :=
  { id := ("seg-1"), speaker := ("AI"), text := ("Hvordan var oplevelsen?"),
    edited_text := none, editable := true, tags := none }

/-- A customer segment with a non-empty override. -/
def segB : Segment :=
  { id := ("seg-2"), speaker := ("Kunde"), text := ("Fint udvalg"),
    edited_text := some ("Godt udvalg"), editable := true, tags := none }

/-- A customer segment whose override is present but empty. -/
def segEmptyOverride : Segment :=
  { id := ("seg-3"), speaker := ("Kunde"), text := ("Original tekst"),
    edited_text := some (""), editable := true, tags := none }

/-- A previously fetched transcript detail. -/
def tOld : Transcript :=
  { id := ("int-1"), supermarket := ("Netto"), editable := true,
    segments := [segA, segB] }

/-- A transcript detail returned by a later fetch. -/
def tNew : Transcript :=
  { id := ("int-7"), supermarket := ("Føtex"), editable := true,
    segments := [segA] }

/-- A reader state currently showing tOld. -/
def readerShowing : ReaderState :=
  { selectedInterview := some ("int-1"), fullTranscript := some tOld,
    loadingTranscript := false, editingSegment := none, editText := (""),
    tagOpen := fun _ => false }

/-! ## Helper lemmas -/

/-- A beq test on options of strings is false exactly on distinct
values. -/
theorem beq_false_of_ne {α : Type} [BEq α] [LawfulBEq α] {a b : α} (h : a ≠ b) :
    (a == b) = false :=
  beq_eq_false_iff_ne.mpr h

/-! ## Claims -/

/-- C1, counterexample: for the segment whose edited_text is present
but empty, the rendered text is the original text, not the present
edited_text, so the claim that the display equals edited_text whenever
that field is present fails. -/
theorem segment_display_empty_override_refutes_claim :
    segEmptyOverride.edited_text = some ("") ∧
    renderSegment none ("") segEmptyOverride =
      SegmentView.textView (segEmptyOverride.text) ∧
    displayedText segEmptyOverride ≠ claimedDisplay segEmptyOverride := by
  decide

/-- C1 (amended): for every segment not holding the editing slot, the
rendered body is a plain text view of edited_text when that field is
present and non-empty, and of the original text otherwise (in
particular when the override is present but empty); the display is
always exactly one of the two texts, never a concatenation or mix. -/
theorem segment_display_override_or_original (es : Option String) (buf : String)
    (s : Segment) (h : es ≠ some s.id) :
    renderSegment es buf s = SegmentView.textView (displayedText s) ∧
    ((∃ e, s.edited_text = some e ∧ e ≠ ("") ∧ displayedText s = e) ∨
     ((s.edited_text = none ∨ s.edited_text = some ("")) ∧
      displayedText s = s.text)) := by
  constructor
  · have hbeq : (es == some s.id) = false := beq_false_of_ne h
    simp [renderSegment, hbeq]
  · cases hs : s.edited_text with
    | none =>
      exact Or.inr ⟨Or.inl rfl, by simp [displayedText, jsOrStr, hs]⟩
    | some e =>
      by_cases he : e = ("")
      · subst he
        exact Or.inr ⟨Or.inr rfl, by simp [displayedText, jsOrStr, hs]⟩
      · refine Or.inl ⟨e, rfl, he, ?_⟩
        simp [displayedText, jsOrStr, hs, he]

/-- C1 witness: the amended display theorem applied to a concrete
segment with a non-empty override. -/
theorem segment_display_override_or_original_witness :
    renderSegment none ("buf") segB = SegmentView.textView (displayedText segB) ∧
    ((∃ e, segB.edited_text = some e ∧ e ≠ ("") ∧ displayedText segB = e) ∨
     ((segB.edited_text = none ∨ segB.edited_text = some ("")) ∧
      displayedText segB = segB.text)) :=
  segment_display_override_or_original none ("buf") segB (by decide)

/-- C2: the editing slot is one shared optional identifier, so any two
segments simultaneously in Editing state have the same id; starting an
edit on segment b claims the slot for b and thereby exits the edit
state of any other segment a; the tagging toggles are per-segment, so
toggling the panels of two distinct closed segments leaves both open at
once. -/
theorem single_shared_editing_slot (st : ReaderState) (a b : Segment)
    (hab : a.id ≠ b.id) :
    (∀ s1 s2 : Segment, segInEditing st s1 → segInEditing st s2 → s1.id = s2.id) ∧
    (segInEditing (startEdit st b) b ∧ ¬ segInEditing (startEdit st b) a) ∧
    (st.tagOpen a.id = false → st.tagOpen b.id = false →
      (toggleTagPanel (toggleTagPanel st a.id) b.id).tagOpen a.id = true ∧
      (toggleTagPanel (toggleTagPanel st a.id) b.id).tagOpen b.id = true) := by
  refine ⟨?_, ⟨rfl, ?_⟩, ?_⟩
  · intro s1 s2 h1 h2
    unfold segInEditing at h1 h2
    rw [h1] at h2
    exact Option.some.inj h2
  · intro hcontra
    unfold segInEditing startEdit at hcontra
    exact hab (Option.some.inj hcontra).symm
  · intro ha hb
    have hab2 : b.id ≠ a.id := Ne.symm hab
    constructor
    · simp [toggleTagPanel, hab, hab2, ha]
    · simp [toggleTagPanel, hab, hab2, hb]

/-- C2 witness: the shared-slot theorem applied to two concrete
segments of the initial reader state. -/
theorem single_shared_editing_slot_witness :
    (∀ s1 s2 : Segment, segInEditing readerInit s1 → segInEditing readerInit s2 →
      s1.id = s2.id) ∧
    (segInEditing (startEdit readerInit segB) segB ∧
     ¬ segInEditing (startEdit readerInit segB) segA) ∧
    (readerInit.tagOpen segA.id = false → readerInit.tagOpen segB.id = false →
      (toggleTagPanel (toggleTagPanel readerInit segA.id) segB.id).tagOpen segA.id = true ∧
      (toggleTagPanel (toggleTagPanel readerInit segA.id) segB.id).tagOpen segB.id = true) :=
  single_shared_editing_slot readerInit segA segB (by decide)

/-- C8: for a segment whose edited_text is present but empty, the
non-editing display falls back to the original text, and entering
Editing pre-fills the buffer with the original text while claiming the
slot for this segment. -/
theorem empty_override_display_and_buffer (st : ReaderState) (s : Segment)
    (h : s.edited_text = some ("")) :
    displayedText s = s.text ∧
    (startEdit st s).editText = s.text ∧
    (startEdit st s).editingSegment = some s.id := by
  refine ⟨?_, ?_, rfl⟩ <;> simp [displayedText, startEdit, jsOrStr, h]

/-- C8 witness: the empty-override theorem applied to the concrete
segment with an empty override. -/
theorem empty_override_display_and_buffer_witness :
    displayedText segEmptyOverride = segEmptyOverride.text ∧
    (startEdit readerShowing segEmptyOverride).editText = segEmptyOverride.text ∧
    (startEdit readerShowing segEmptyOverride).editingSegment =
      some segEmptyOverride.id :=
  empty_override_display_and_buffer readerShowing segEmptyOverride (by decide)

/-- A successful POST response used by concrete evaluations. -/
def postOk : FetchResult Unit :=
  FetchResult.resp { status := 200, data := (), bodyText := ("") }

/-- A successful GET interview response carrying tNew. -/
def getOkNew : FetchResult Transcript :=
  FetchResult.resp { status := 200, data := tNew, bodyText := ("") }

/-- The privilege check is false for a user whose access level contains
neither Premium nor Admin as a substring, and for an absent user or
level. -/
theorem isEditable_false_of_no_privilege_substring (user : Option User)
    (h : ∀ lvl, accessLevelOf user = some lvl →
      strIncludes lvl ("Premium") = false ∧ strIncludes lvl ("Admin") = false) :
    isEditable user = false := by
  cases user with
  | none => rfl
  | some u =>
    cases hl : u.accessLevel with
    | none => simp [isEditable, hl]
    | some lvl =>
      have hp := h lvl (by simp [accessLevelOf, hl])
      simp [isEditable, hl, hp.1, hp.2]

/-- C3, counterexample: the access level Premium-trial is neither
Premium nor Admin, yet the substring-based privilege check accepts it,
the edit and tag controls are rendered for an editable segment, and the
edit submit issues network requests. -/
theorem premium_trial_user_can_edit :
    accessLevelOf (some ptUser) ≠ some ("Premium") ∧
    accessLevelOf (some ptUser) ≠ some ("Admin") ∧
    isEditable (some ptUser) = true ∧
    editControlsShown (some ptUser) segA = true ∧
    (handleEditSegment (some ptUser) effAuth readerShowing (("seg-1")) (("ny tekst"))
      postOk getOkNew).2.2 ≠ [] := by
  decide

/-- C3 (amended): for every user whose access level contains neither
Premium nor Admin as a substring (in particular when the user or the
level is absent), and for every segment regardless of its editable
flag, the edit and tag controls and the tagging panel are never
rendered, and the edit and tag submit handlers return with the
state, the storage and the reload flag untouched and with no network
request issued. -/
theorem non_privileged_never_edits_or_tags (user : Option User) (eff : Effects)
    (st : ReaderState) (sid txt sent th nts : String) (s : Segment) (b : Bool)
    (pf : FetchResult Unit) (gf : FetchResult Transcript)
    (h : ∀ lvl, accessLevelOf user = some lvl →
      strIncludes lvl ("Premium") = false ∧ strIncludes lvl ("Admin") = false) :
    editControlsShown user s = false ∧
    taggingPanelShown user b = false ∧
    handleEditSegment user eff st sid txt pf gf = (eff, st, []) ∧
    handleTagSegment user eff st sid sent th nts pf gf = (eff, st, []) := by
  have hE : isEditable user = false := isEditable_false_of_no_privilege_substring user h
  refine ⟨?_, ?_, ?_, ?_⟩
  · simp [editControlsShown, hE]
  · simp [taggingPanelShown, hE]
  · simp [handleEditSegment, hE]
  · simp [handleTagSegment, hE]

/-- C3 witness: the amended privilege theorem applied to a Standard
user and a concrete editable segment. -/
theorem non_privileged_never_edits_or_tags_witness :
    editControlsShown (some stdUser) segA = false ∧
    taggingPanelShown (some stdUser) true = false ∧
    handleEditSegment (some stdUser) effAuth readerShowing (("seg-1")) (("ny"))
      postOk getOkNew = (effAuth, readerShowing, []) ∧
    handleTagSegment (some stdUser) effAuth readerShowing (("seg-1")) (("positive"))
      (("Service")) (("note")) postOk getOkNew = (effAuth, readerShowing, []) :=
  non_privileged_never_edits_or_tags (some stdUser) effAuth readerShowing
    (("seg-1")) (("ny")) (("positive")) (("Service")) (("note")) segA true
    postOk getOkNew
    (by intro lvl hl
        simp [accessLevelOf, stdUser] at hl
        subst hl
        decide)

/-- C4: a 401 response on any call through the gateway client clears
all three durable session keys in one step, resolves with no data, and
forces a reload; the mount check on the cleared storage then routes to
the logged-out landing view. -/
theorem unauthorized_clears_session_and_logs_out {α : Type} (eff : Effects)
    (r : Response α) (h : r.status = 401) :
    apiCall eff (FetchResult.resp r) =
      ({ storage := { access_token := none, user_email := none, access_level := none },
         reloaded := true }, CallResult.value none) ∧
    mountView (clearStoredAuth eff.storage) = AppView.landing := by
  constructor
  · simp [apiCall, h, clearStoredAuth]
  · rfl

/-- C4 witness: the 401 theorem applied to a concrete logged-in
session and a concrete 401 response. -/
theorem unauthorized_clears_session_and_logs_out_witness :
    apiCall effAuth (FetchResult.resp
        ({ status := 401, data := (), bodyText := ("Unauthorized") } : Response Unit)) =
      ({ storage := { access_token := none, user_email := none, access_level := none },
         reloaded := true }, CallResult.value none) ∧
    mountView (clearStoredAuth effAuth.storage) = AppView.landing :=
  unauthorized_clears_session_and_logs_out effAuth
    { status := 401, data := (), bodyText := ("Unauthorized") } rfl

/-- A 2xx response has a status other than 401, so apiCall takes its
success branch. -/
theorem responseOk_ne_401 {α : Type} {r : Response α} (h : responseOk r = true) :
    (r.status == 401) = false := by
  simp only [responseOk, Bool.and_eq_true, decide_eq_true_eq] at h
  have hne : r.status ≠ 401 := by omega
  simp [hne]

/-- The fetch outcomes on which apiCall throws: a transport failure or
a non-2xx response other than 401. -/
def apiCallThrows {α : Type} : FetchResult α → Bool
  | FetchResult.netFail _ => true
  | FetchResult.resp r => !(r.status == 401) && !(responseOk r)

/-- On a throwing fetch outcome, apiCall rejects with some message and
leaves the storage and the reload flag untouched. -/
theorem apiCall_thrown_of_throws {α : Type} (eff : Effects) {fr : FetchResult α}
    (h : apiCallThrows fr = true) :
    ∃ m, apiCall eff fr = (eff, CallResult.thrown m) := by
  cases fr with
  | netFail m => exact ⟨m, rfl⟩
  | resp r =>
    simp only [apiCallThrows, Bool.and_eq_true, Bool.not_eq_true'] at h
    exact ⟨("API Error: ") ++ toString r.status ++ (" - ") ++ r.bodyText,
      by simp [apiCall, h.1, h.2]⟩

/-- C5: when the privilege check passes and the POST of an edit or tag
save returns 2xx, the handler issues exactly the POST followed by one
GET of the selected interview detail and nothing else; when that GET
returns 2xx, the stored transcript afterwards is exactly the
server-returned detail, the selection is unchanged, and the edit
handler additionally releases the editing slot. -/
theorem save_refetches_once_and_mirrors_server (user : Option User) (eff : Effects)
    (st : ReaderState) (sid txt sent th nts : String)
    (p : Response Unit) (g : Response Transcript)
    (hEd : isEditable user = true) (hp : responseOk p = true)
    (hg : responseOk g = true) :
    (handleEditSegment user eff st sid txt (FetchResult.resp p)
       (FetchResult.resp g)).2.2 =
      [Request.postEdit st.selectedInterview sid txt,
       Request.getInterview st.selectedInterview] ∧
    (handleEditSegment user eff st sid txt (FetchResult.resp p)
       (FetchResult.resp g)).2.1.fullTranscript = some g.data ∧
    (handleEditSegment user eff st sid txt (FetchResult.resp p)
       (FetchResult.resp g)).2.1.selectedInterview = st.selectedInterview ∧
    (handleEditSegment user eff st sid txt (FetchResult.resp p)
       (FetchResult.resp g)).2.1.editingSegment = none ∧
    (handleTagSegment user eff st sid sent th nts (FetchResult.resp p)
       (FetchResult.resp g)).2.2 =
      [Request.postTag st.selectedInterview sid sent th nts,
       Request.getInterview st.selectedInterview] ∧
    (handleTagSegment user eff st sid sent th nts (FetchResult.resp p)
       (FetchResult.resp g)).2.1.fullTranscript = some g.data := by
  have hp401 := responseOk_ne_401 hp
  have hg401 := responseOk_ne_401 hg
  refine ⟨?_, ?_, ?_, ?_, ?_, ?_⟩ <;>
    simp [handleEditSegment, handleTagSegment, fetchFullTranscript,
          fetchFullTranscriptTrace, applyUpdate, apiCall, hEd, hp, hg,
          hp401, hg401]

/-- C5 witness: the save theorem applied to a Premium user, a 200 POST
and a 200 GET returning the concrete detail tNew. -/
theorem save_refetches_once_and_mirrors_server_witness :
    (handleEditSegment (some premUser) effAuth readerShowing (("seg-1")) (("ny"))
       postOk getOkNew).2.2 =
      [Request.postEdit readerShowing.selectedInterview (("seg-1")) (("ny")),
       Request.getInterview readerShowing.selectedInterview] ∧
    (handleEditSegment (some premUser) effAuth readerShowing (("seg-1")) (("ny"))
       postOk getOkNew).2.1.fullTranscript = some tNew ∧
    (handleEditSegment (some premUser) effAuth readerShowing (("seg-1")) (("ny"))
       postOk getOkNew).2.1.editingSegment = none :=
  have h := save_refetches_once_and_mirrors_server (some premUser) effAuth
    readerShowing (("seg-1")) (("ny")) (("positive")) (("Service")) (("note"))
    { status := 200, data := (), bodyText := ("") }
    { status := 200, data := tNew, bodyText := ("") }
    (by decide) (by decide) (by decide)
  ⟨h.1, h.2.1, h.2.2.2.1⟩

/-! Fixtures for the dashboard batch. -/

/-- A concrete overview payload. -/
def ovW : OverviewData :=
  { total_interviews := 12, active_interviews := 3,
    assistant_name := ("Supermarket int. dansk") }

/-- A concrete themes envelope. -/
def thW : ThemesResp := { themes := some [] }

/-- A concrete ratings envelope. -/
def raW : RatingsResp := { ratings := some [] }

/-- A concrete interviews envelope. -/
def ivW : InterviewsResp := { interviews := some [] }

/-- The dashboard state before the first batch. -/
def dashInit : DashState :=
  { isLoading := true, error := none, overview := none, themes := [],
    ratings := [], interviews := [] }

/-- The four batch promises all resolving, at times 3, 1, 4 and 2. -/
def aOkW : Settled OverviewData := { time := 3, outcome := PromiseOutcome.ok ovW }

/-- See aOkW. -/
def bOkW : Settled ThemesResp := { time := 1, outcome := PromiseOutcome.ok thW }

/-- See aOkW. -/
def cOkW : Settled RatingsResp := { time := 4, outcome := PromiseOutcome.ok raW }

/-- See aOkW. -/
def dOkW : Settled InterviewsResp := { time := 2, outcome := PromiseOutcome.ok ivW }

/-- The overview promise resolving late, at time 5. -/
def aSlowW : Settled OverviewData := { time := 5, outcome := PromiseOutcome.ok ovW }

/-- The themes promise rejecting early, at time 1. -/
def bRejW : Settled ThemesResp :=
  { time := 1, outcome := PromiseOutcome.rejected ("Failed to fetch") }

/-- The ratings promise resolving late, at time 5. -/
def cSlowW : Settled RatingsResp := { time := 5, outcome := PromiseOutcome.ok raW }

/-- The interviews promise resolving late, at time 5. -/
def dSlowW : Settled InterviewsResp := { time := 5, outcome := PromiseOutcome.ok ivW }

/-- C6, counterexample: with one fetch rejecting at time 1 while the
other three settle at time 5, Promise.all makes the batch fail at time
1, strictly before all four have settled, so the claim that the batch
completes or fails only once all four settle is false. -/
theorem dashboard_batch_fails_before_all_settle :
    (promiseAll4 aSlowW bRejW cSlowW dSlowW).outcome =
      PromiseOutcome.rejected ("Failed to fetch") ∧
    (promiseAll4 aSlowW bRejW cSlowW dSlowW).time = 1 ∧
    (promiseAll4 aSlowW bRejW cSlowW dSlowW).time <
      allSettleTime4 aSlowW bRejW cSlowW dSlowW ∧
    (fetchAllData false dashInit aSlowW bRejW cSlowW dSlowW).2.1 = 1 := by
  decide

/-- C6 (amended): the four dashboard fetches are issued as one batch
without waiting on each other; the batch completes successfully only
once all four have settled and only then are the four payloads stored,
with no partial-result rendering; when any fetch rejects, the batch
fails at the first rejection (without waiting for the remaining
fetches to settle), none of the four data slices changes, and the
single dashboard-wide error banner message is set; the manual retry
re-issues the full batch of four. -/
theorem dashboard_fetch_fan_out_fan_in (showLoading : Bool) (st : DashState)
    (a : Settled OverviewData) (b : Settled ThemesResp)
    (c : Settled RatingsResp) (d : Settled InterviewsResp) :
    (fetchAllData showLoading st a b c d).2.2 = dashboardBatch ∧
    (handleRetry st a b c d).2.2 = dashboardBatch ∧
    (∀ x y z w, a.outcome = PromiseOutcome.ok x → b.outcome = PromiseOutcome.ok y →
      c.outcome = PromiseOutcome.ok z → d.outcome = PromiseOutcome.ok w →
      (fetchAllData showLoading st a b c d).2.1 = allSettleTime4 a b c d ∧
      (fetchAllData showLoading st a b c d).1.overview = some x ∧
      (fetchAllData showLoading st a b c d).1.themes = y.themes.getD [] ∧
      (fetchAllData showLoading st a b c d).1.ratings = z.ratings.getD [] ∧
      (fetchAllData showLoading st a b c d).1.interviews = w.interviews.getD [] ∧
      (fetchAllData showLoading st a b c d).1.error = none) ∧
    (∀ m, (promiseAll4 a b c d).outcome = PromiseOutcome.rejected m →
      (fetchAllData showLoading st a b c d).1.overview = st.overview ∧
      (fetchAllData showLoading st a b c d).1.themes = st.themes ∧
      (fetchAllData showLoading st a b c d).1.ratings = st.ratings ∧
      (fetchAllData showLoading st a b c d).1.interviews = st.interviews ∧
      (fetchAllData showLoading st a b c d).1.error = some dashboardErrorMsg) := by
  refine ⟨rfl, rfl, ?_, ?_⟩
  · intro x y z w ha hb hc hd
    refine ⟨?_, ?_, ?_, ?_, ?_, ?_⟩ <;>
      simp [fetchAllData, promiseAll4, ha, hb, hc, hd]
  · intro m hm
    refine ⟨?_, ?_, ?_, ?_, ?_⟩ <;> simp [fetchAllData, hm]

/-- C6 witness: the fan-out theorem applied to four concrete resolving
promises, with the batch settling at the latest of the four times. -/
theorem dashboard_fetch_fan_out_fan_in_witness :
    (fetchAllData true dashInit aOkW bOkW cOkW dOkW).2.2 = dashboardBatch ∧
    (fetchAllData true dashInit aOkW bOkW cOkW dOkW).2.1 =
      allSettleTime4 aOkW bOkW cOkW dOkW ∧
    (fetchAllData true dashInit aOkW bOkW cOkW dOkW).1.overview = some ovW ∧
    (fetchAllData true dashInit aOkW bOkW cOkW dOkW).1.error = none :=
  have h := dashboard_fetch_fan_out_fan_in true dashInit aOkW bOkW cOkW dOkW
  have hok := h.2.2.1 ovW thW raW ivW rfl rfl rfl rfl
  ⟨h.1, hok.1, hok.2.1, hok.2.2.2.2.2⟩

/-- C7, counterexample: a 401 response is a non-2xx failure of the
edit save, yet it does not leave the session untouched: the stored
keys are cleared and a reload is forced, so the claim that no session
state changes on a non-2xx save failure is false. -/
theorem unauthorized_edit_save_changes_session :
    responseOk ({ status := 401, data := (), bodyText := ("") } : Response Unit) =
      false ∧
    (handleEditSegment (some premUser) effAuth readerShowing (("seg-1")) (("ny"))
       (FetchResult.resp { status := 401, data := (), bodyText := ("") })
       (FetchResult.netFail ("netværksfejl"))).1.storage ≠ effAuth.storage ∧
    (handleEditSegment (some premUser) effAuth readerShowing (("seg-1")) (("ny"))
       (FetchResult.resp { status := 401, data := (), bodyText := ("") })
       (FetchResult.netFail ("netværksfejl"))).1.storage.access_token = none ∧
    (handleEditSegment (some premUser) effAuth readerShowing (("seg-1")) (("ny"))
       (FetchResult.resp { status := 401, data := (), bodyText := ("") })
       (FetchResult.netFail ("netværksfejl"))).1.reloaded = true := by
  decide

/-- C7 (amended): when an edit or tag save fails with a transport
error or a non-2xx response other than 401, the failure is only
logged: the widget state, the stored session keys and the reload flag
are all unchanged, no error is surfaced into any state, and exactly
the single POST was issued with no retry; a 401 response instead
triggers the global session teardown of the gateway client. -/
theorem failed_save_logs_only (user : Option User) (eff : Effects)
    (st : ReaderState) (sid txt sent th nts : String)
    (pf : FetchResult Unit) (gf : FetchResult Transcript)
    (hEd : isEditable user = true) (hp : apiCallThrows pf = true) :
    handleEditSegment user eff st sid txt pf gf =
      (eff, st, [Request.postEdit st.selectedInterview sid txt]) ∧
    handleTagSegment user eff st sid sent th nts pf gf =
      (eff, st, [Request.postTag st.selectedInterview sid sent th nts]) := by
  obtain ⟨m, hm⟩ := apiCall_thrown_of_throws eff hp
  constructor <;> simp [handleEditSegment, handleTagSegment, hEd, hm]

/-- C7 witness: the silent-failure theorem applied to a Premium user
and a POST that fails with a 500 response. -/
theorem failed_save_logs_only_witness :
    handleEditSegment (some premUser) effAuth readerShowing (("seg-1")) (("ny"))
      (FetchResult.resp { status := 500, data := (), bodyText := ("fejl") })
      getOkNew =
      (effAuth, readerShowing,
       [Request.postEdit readerShowing.selectedInterview (("seg-1")) (("ny"))]) ∧
    handleTagSegment (some premUser) effAuth readerShowing (("seg-1")) (("positive"))
      (("Service")) (("note"))
      (FetchResult.resp { status := 500, data := (), bodyText := ("fejl") })
      getOkNew =
      (effAuth, readerShowing,
       [Request.postTag readerShowing.selectedInterview (("seg-1")) (("positive"))
          (("Service")) (("note"))]) :=
  failed_save_logs_only (some premUser) effAuth readerShowing (("seg-1")) (("ny"))
    (("positive")) (("Service")) (("note"))
    (FetchResult.resp { status := 500, data := (), bodyText := ("fejl") })
    getOkNew (by decide) (by decide)

/-- C9, counterexample: a 401 response on GET interview/id is not a
success, yet the call resolves with no data, the stored transcript is
cleared and the selection switches to the new id, so the claim that
the two are updated only on success is false. -/
theorem unauthorized_refetch_switches_selection :
    responseOk ({ status := 401, data := tNew, bodyText := ("") } :
        Response Transcript) = false ∧
    readerShowing.selectedInterview = some ("int-1") ∧
    readerShowing.fullTranscript = some tOld ∧
    (fetchFullTranscript effAuth readerShowing (some ("int-7"))
       (FetchResult.resp { status := 401, data := tNew, bodyText := ("") })
      ).2.1.fullTranscript = none ∧
    (fetchFullTranscript effAuth readerShowing (some ("int-7"))
       (FetchResult.resp { status := 401, data := tNew, bodyText := ("") })
      ).2.1.selectedInterview = some ("int-7") := by
  decide

/-- C9 (amended): when GET interview/id throws (transport failure or
non-2xx other than 401), both the stored transcript and the selection
are unchanged; on a 2xx response both are updated to the
server-returned detail and the requested id, with the transcript
stored strictly before the selection in the setState trace; on a 401
the call instead resolves with no data, clearing the transcript and
switching the selection before the global teardown reload. -/
theorem transcript_selection_atomic (eff : Effects) (st : ReaderState)
    (iid : Option String) (fr : FetchResult Transcript) :
    (apiCallThrows fr = true →
      (fetchFullTranscript eff st iid fr).2.1.fullTranscript = st.fullTranscript ∧
      (fetchFullTranscript eff st iid fr).2.1.selectedInterview =
        st.selectedInterview) ∧
    (∀ r, fr = FetchResult.resp r → responseOk r = true →
      fetchFullTranscriptTrace iid (CallResult.value (some r.data)) =
        [ReaderUpdate.setLoadingTranscript true,
         ReaderUpdate.setFullTranscript (some r.data),
         ReaderUpdate.setSelectedInterview iid,
         ReaderUpdate.setLoadingTranscript false] ∧
      (fetchFullTranscript eff st iid fr).2.1.fullTranscript = some r.data ∧
      (fetchFullTranscript eff st iid fr).2.1.selectedInterview = iid) := by
  constructor
  · intro h
    obtain ⟨m, hm⟩ := apiCall_thrown_of_throws eff h
    constructor <;>
      simp [fetchFullTranscript, fetchFullTranscriptTrace, applyUpdate, hm]
  · intro r hr hok
    subst hr
    have h401 := responseOk_ne_401 hok
    refine ⟨rfl, ?_, ?_⟩ <;>
      simp [fetchFullTranscript, fetchFullTranscriptTrace, applyUpdate, apiCall,
            hok, h401]

/-- C9 witness: the atomicity theorem applied to a transport failure
and, separately, to a 200 response returning tNew. -/
theorem transcript_selection_atomic_witness :
    ((fetchFullTranscript effAuth readerShowing (some ("int-7"))
        (FetchResult.netFail ("x"))).2.1.fullTranscript =
      readerShowing.fullTranscript ∧
     (fetchFullTranscript effAuth readerShowing (some ("int-7"))
        (FetchResult.netFail ("x"))).2.1.selectedInterview =
      readerShowing.selectedInterview) ∧
    ((fetchFullTranscript effAuth readerShowing (some ("int-7"))
        getOkNew).2.1.fullTranscript = some tNew ∧
     (fetchFullTranscript effAuth readerShowing (some ("int-7"))
        getOkNew).2.1.selectedInterview = some ("int-7")) :=
  ⟨(transcript_selection_atomic effAuth readerShowing (some ("int-7"))
      (FetchResult.netFail ("x"))).1 (by decide),
   ((transcript_selection_atomic effAuth readerShowing (some ("int-7"))
      getOkNew).2 { status := 200, data := tNew, bodyText := ("") } rfl
      (by decide)).2⟩

/-- C10: a blank chat input (empty or whitespace only) is a no-op: no
message is appended, no request is issued, and the input and loading
flag are untouched; a non-blank input appends exactly one user message
carrying the raw input and exactly one bot message, issues exactly one
POST chat, and finally clears the input and drops the loading flag;
the bot message carries the server answer when the call resolves with
a 2xx payload and the fixed apology when the call throws. -/
theorem chat_send_blank_noop_else_two_messages (eff : Effects) (st : ChatState)
    (fr : FetchResult ChatResp) :
    (jsTrim st.input = ("") → handleSendMessage eff st fr = (eff, st, [])) ∧
    (jsTrim st.input ≠ ("") →
      (handleSendMessage eff st fr).2.2 = [Request.postChat st.input] ∧
      (handleSendMessage eff st fr).2.1.input = ("") ∧
      (handleSendMessage eff st fr).2.1.isLoading = false ∧
      (handleSendMessage eff st fr).2.1.messages =
        st.messages ++
          [({ type := ("user"), content := st.input } : ChatMessage),
           ({ type := ("bot"),
              content := chatBotReply (apiCall eff fr).2 } : ChatMessage)] ∧
      (∀ r, fr = FetchResult.resp r → responseOk r = true →
        chatBotReply (apiCall eff fr).2 = r.data.answer) ∧
      (apiCallThrows fr = true →
        chatBotReply (apiCall eff fr).2 = chatApology)) := by
  constructor
  · intro h
    simp [handleSendMessage, h]
  · intro h
    have hbeq : (jsTrim st.input == ("")) = false := beq_false_of_ne h
    refine ⟨?_, ?_, ?_, ?_, ?_, ?_⟩
    · simp [handleSendMessage, hbeq]
    · simp [handleSendMessage, hbeq]
    · simp [handleSendMessage, hbeq]
    · simp [handleSendMessage, hbeq]
    · intro r hr hok
      subst hr
      have h401 := responseOk_ne_401 hok
      simp [apiCall, chatBotReply, hok, h401]
    · intro ht
      obtain ⟨m, hm⟩ := apiCall_thrown_of_throws eff ht
      simp [hm, chatBotReply]

/-- C10 witness: the chat theorem applied to a whitespace-only input
and, separately, to a non-blank input answered with a 200 payload. -/
theorem chat_send_blank_noop_else_two_messages_witness :
    handleSendMessage effAuth
      ({ messages := [], input := ("   "), isLoading := false } : ChatState)
      (FetchResult.resp { status := 200, data := { answer := ("Svar") },
                          bodyText := ("") }) =
      (effAuth, { messages := [], input := ("   "), isLoading := false }, []) ∧
    ((handleSendMessage effAuth
        ({ messages := [], input := ("Hvad?"), isLoading := false } : ChatState)
        (FetchResult.resp { status := 200, data := { answer := ("Svar") },
                            bodyText := ("") })).2.2 =
      [Request.postChat ("Hvad?")] ∧
     (handleSendMessage effAuth
        ({ messages := [], input := ("Hvad?"), isLoading := false } : ChatState)
        (FetchResult.resp { status := 200, data := { answer := ("Svar") },
                            bodyText := ("") })).2.1.input = ("")) :=
  have hBlank := (chat_send_blank_noop_else_two_messages effAuth
    { messages := [], input := ("   "), isLoading := false }
    (FetchResult.resp { status := 200, data := { answer := ("Svar") },
                        bodyText := ("") })).1 (by decide)
  have hSend := (chat_send_blank_noop_else_two_messages effAuth
    { messages := [], input := ("Hvad?"), isLoading := false }
    (FetchResult.resp { status := 200, data := { answer := ("Svar") },
                        bodyText := ("") })).2 (by decide)
  ⟨hBlank, hSend.1, hSend.2.1⟩

end Mindcalls
